import Mathlib

/-!
Verification of the AppFlowy cloud connection supervisor
(`frontend/rust-lib/flowy-server/src/af_cloud/server.rs`).

The development shallowly embeds the parts of `server.rs` the claims touch:
the jittered-delay sampling and cancellation handling of `attempt_reconnect`
(lines 354-380), the two reactive loops spawned by `spawn_ws_conn`
(lines 286-346), the token-state translation loop of `subscribe_token_state`
(lines 137-164), and the facade state (`enable_sync`, `network_reachable`,
`get_server_impl`, `set_enable_sync`, `set_network_reachable`,
`AFServerImpl::try_get_client`).  Stateful code is modelled by explicit state
passing; the racy three-step body of `attempt_reconnect` is additionally
modelled as a small-step interleaving semantics over the shared
`ArcSwap<CancellationToken>` cell.
-/

/- ## Delay sampling (server.rs:363) -/

/-- Rust `rand` integer range sampling `gen_range(lo..hi)`: a uniformly chosen
element of the half-open interval `[lo, hi)`, driven here by the abstract
random source `r` (every residue of `r` modulo the range width is realizable
and equally likely).  An empty range (`lo >= hi`) makes `gen_range` panic,
modelled as `none`. -/
def gen_range (lo hi r : Nat) : Option Nat :=
  if lo < hi then some (lo + r % (hi - lo)) else none

/-- server.rs:363, inside `attempt_reconnect`:
`let delay_seconds = rand::thread_rng().gen_range(minimum_delay_in_secs..10);`
Note the upper bound in the source is the literal `10`, not
`minimum_delay_in_secs + 10`. -/
def delay_seconds (minimum_delay_in_secs r : Nat) : Option Nat :=
  gen_range minimum_delay_in_secs 10 r

/- ## The reconnect scheduler's shared cancellation cell (server.rs:354-380)

`attempt_reconnect` performs three successive operations on the shared
`Arc<ArcSwap<CancellationToken>>`:

  1. line 359: `cancellation_token.load_full().cancel();`
  2. lines 360-361: create a fresh token and `store` it into the cell;
  3. lines 363-379: sample the delay and spawn a task that races the caller's
     own fresh token against the sleep, calling `connect` if the sleep wins.

Each step is individually atomic, but the sequence is not: the function is
invoked concurrently from the connectivity loop (line 308) and the token loop
(line 334), which run as independent tasks on a multi-threaded runtime.
Cancellation tokens are identified by the `Nat` id assigned at their creation;
token `0` is the one created in `spawn_ws_conn` (line 296). -/

/-- Shared state: the id stored in the `ArcSwap` cell, the ids whose `cancel()`
has been called, the ids governing spawned reconnect tasks, and the fresh-id
counter. -/
structure SchedulerState where
  installed : Nat
  cancelled : List Nat
  attempts : List Nat
  fresh : Nat
deriving Repr, DecidableEq

/-- State of the cell right after `spawn_ws_conn` created token `0`. -/
def SchedulerState.start : SchedulerState :=
  { installed := 0, cancelled := [], attempts := [], fresh := 1 }

/-- Program counter of one in-flight `attempt_reconnect` body, split at its
three atomic operations on the shared cell. -/
inductive CallerPC
  | cancelOld
  | storeNew
  | spawnTask
  | finished
deriving Repr, DecidableEq

/-- One caller of `attempt_reconnect`: its program counter and the id of the
fresh token it created (meaningful from `spawnTask` on). -/
structure CallerState where
  pc : CallerPC
  myToken : Nat
deriving Repr, DecidableEq

/-- One atomic step of one `attempt_reconnect` caller against the shared cell. -/
def callerStep (s : SchedulerState) (c : CallerState) : SchedulerState × CallerState :=
  match c.pc with
  | .cancelOld =>
    ({ s with cancelled := s.installed :: s.cancelled }, { c with pc := .storeNew })
  | .storeNew =>
    ({ s with installed := s.fresh, fresh := s.fresh + 1 },
      { pc := .spawnTask, myToken := s.fresh })
  | .spawnTask =>
    ({ s with attempts := s.attempts ++ [c.myToken] }, { c with pc := .finished })
  | .finished => (s, c)

/-- Two concurrent callers of `attempt_reconnect` over the shared cell, as when
the connectivity loop (line 308) and the token loop (line 334) race. -/
structure RaceConfig where
  shared : SchedulerState
  a : CallerState
  b : CallerState
deriving Repr, DecidableEq

/-- Both callers about to execute line 359, cell in its freshly spawned state. -/
def RaceConfig.start : RaceConfig :=
  { shared := .start, a := { pc := .cancelOld, myToken := 0 },
    b := { pc := .cancelOld, myToken := 0 } }

/-- Run one atomic step of caller `b` (when `runB`) or caller `a`. -/
def raceStep (cfg : RaceConfig) (runB : Bool) : RaceConfig :=
  if runB then
    let sb := callerStep cfg.shared cfg.b
    { cfg with shared := sb.1, b := sb.2 }
  else
    let sa := callerStep cfg.shared cfg.a
    { cfg with shared := sa.1, a := sa.2 }

/-- Execute an interleaving schedule of the two racing callers. -/
def runRace (sched : List Bool) : RaceConfig :=
  sched.foldl raceStep .start

/-- A spawned reconnect task is in its delay-or-connect phase exactly while its
governing token is uncancelled: the `select!` at lines 366-378 abandons the
attempt only when that token's `cancelled()` fires. -/
def liveAttempts (s : SchedulerState) : List Nat :=
  s.attempts.filter (fun t => !(s.cancelled.contains t))

/-- One `attempt_reconnect` call run to completion with no interleaving: the
three atomic steps of `callerStep` in immediate succession. -/
def attempt_reconnect (s : SchedulerState) : SchedulerState :=
  let r1 := callerStep s { pc := .cancelOld, myToken := 0 }
  let r2 := callerStep r1.1 r1.2
  (callerStep r2.1 r2.2).1

/- ## Session facade state (server.rs:49-60, 113-120, 166-173) -/

/-- Opaque handle standing for a reference-counted `Arc<AFCloudClient>`. -/
structure AFCloudClient where
  id : Nat
deriving Repr, DecidableEq

/-- The `AppFlowyCloudServer` state the claims touch: the `enable_sync` and
`network_reachable` atomic booleans, the immutable device id, and the api
client handle (created once in `new` and never replaced). -/
structure SessionState where
  enable_sync : Bool
  network_reachable : Bool
  device_id : String
  client : AFCloudClient
deriving Repr, DecidableEq

/-- `client_api::ws::ConnectState`: the variants the supervisor matches by name
(`PingTimeout`, `Lost`, `Unauthorized`) plus the informational ones covered by
its catch-all arm (spec data model, section 3). -/
inductive ConnectState
  | Connecting
  | Connected
  | Disconnected
  | PingTimeout
  | Lost
  | Unauthorized
deriving Repr, DecidableEq

/- ## Connectivity supervisor loop (server.rs:299-325) -/

/-- Externally visible calls the connectivity loop body can make on one event. -/
inductive SupervisorAction
  | schedule_reconnect (minimum_delay : Nat)
  | refresh_token_call (reason : String)
  | log_refresh_error (err : String)
deriving Repr, DecidableEq

/-- One iteration of the connectivity supervisor loop (the `match state` at
lines 304-322): `api_client_alive` is whether `weak_api_client.upgrade()`
returns `Some`, and `refresh_result` the outcome `api_client.refresh_token`
would produce if called at this tick.  The loop body reads the shared
`enable_sync` atomic captured from the session. -/
def supervise_event (s : SessionState) (state : ConnectState) (api_client_alive : Bool)
    (refresh_result : Except String Unit) : List SupervisorAction :=
  match state with
  | .PingTimeout | .Lost =>
    if api_client_alive && s.enable_sync then [.schedule_reconnect 2] else []
  | .Unauthorized =>
    if api_client_alive then
      match refresh_result with
      | .ok _ => [.refresh_token_call "websocket connect unauthorized"]
      | .error err =>
        [.refresh_token_call "websocket connect unauthorized", .log_refresh_error err]
    else []
  | _ => []

/-- One received connectivity event together with the environment at that tick. -/
structure SupervisorTick where
  state : ConnectState
  api_client_alive : Bool
  refresh_result : Except String Unit
deriving Repr

/-- The supervisor loop over a finite prefix of the connectivity stream: every
received event is handled in order; a failed refresh is logged (an action of
the tick) and the loop keeps reading — no event terminates it. -/
def supervise_loop (s : SessionState) (ticks : List SupervisorTick) :
    List (List SupervisorAction) :=
  ticks.map (fun t => supervise_event s t.state t.api_client_alive t.refresh_result)

/-- How many `schedule_reconnect` calls an action list contains. -/
def count_reconnects (actions : List SupervisorAction) : Nat :=
  (actions.filter (fun a => match a with | .schedule_reconnect _ => true | _ => false)).length

/- ## Token loop (server.rs:327-345) -/

/-- `client_api::notify::TokenState`: the raw token signal from the auth client. -/
inductive TokenState
  | Refresh
  | Invalid
deriving Repr, DecidableEq

/-- Externally visible calls the token loop body can make on one raw event. -/
inductive TokenLoopAction
  | attempt_reconnect_call (minimum_delay : Nat)
  | disconnect
deriving Repr, DecidableEq

/-- One iteration of the token loop (the `match token_state` at lines 331-343):
`ws_client_alive` is whether `weak_ws_client.upgrade()` returns `Some`.  The
closure captures only the weak ws client and the cancellation cell; it reads
no session flag. -/
def token_loop_event (s : SessionState) (t : TokenState) (ws_client_alive : Bool) :
    List TokenLoopAction :=
  match t with
  | .Refresh => if ws_client_alive then [.attempt_reconnect_call 5] else []
  | .Invalid => if ws_client_alive then [.disconnect] else []

/-- How many `disconnect` calls an action list contains. -/
def count_disconnects (actions : List TokenLoopAction) : Nat :=
  (actions.filter (fun a => match a with | .disconnect => true | _ => false)).length

/-- How many `attempt_reconnect` calls an action list contains. -/
def count_reconnect_calls (actions : List TokenLoopAction) : Nat :=
  (actions.filter (fun a => match a with | .attempt_reconnect_call _ => true | _ => false)).length

/- ## Token-state translation loop, subscribe_token_state (server.rs:137-164) -/

/-- `flowy_user_pub::entities::UserTokenState`: the externally observable token
state.  The source emits `UserTokenState::Refresh { token }` (the spec calls
this variant `Refreshed(token)`). -/
inductive UserTokenState
  | Init
  | Refresh (token : String)
  | Invalid
deriving Repr, DecidableEq

/-- Whether a `UserTokenState` is the seed variant `Init`. -/
def UserTokenState.isInit : UserTokenState → Bool
  | .Init => true
  | _ => false

/-- One raw token event as seen by the translation loop: the raw state,
whether `weak_client.upgrade()` returns `Some`, and the outcome
`client.get_token()` would produce at this tick. -/
structure RawTokenTick where
  state : TokenState
  client_alive : Bool
  get_token_result : Except String String
deriving Repr

/-- The emission (if any) the loop body at lines 142-160 sends into the watch
channel for one raw event: `Refresh` with a successful `get_token` emits
`Refresh token`; a failed `get_token` only logs, emitting nothing; `Invalid`
emits `Invalid`; a dead client emits nothing. -/
def translate_token_tick (e : RawTokenTick) : Option UserTokenState :=
  if e.client_alive then
    match e.state with
    | .Refresh =>
      match e.get_token_result with
      | .ok token => some (.Refresh token)
      | .error _ => none
    | .Invalid => some .Invalid
  else none

/-- The sequence of values the `WatchStream` returned by
`subscribe_token_state` carries over a finite prefix of raw events: the watch
channel is created at line 139 holding `UserTokenState::Init`, and thereafter
holds exactly the emissions of the translation loop, in order. -/
def token_state_stream (events : List RawTokenTick) : List UserTokenState :=
  UserTokenState.Init :: events.filterMap translate_token_tick

/- ## Service construction and the sync gate (server.rs:113-120, 175-275, 382-409) -/

/-- `flowy_error::ErrorCode` as used at line 401. -/
inductive ErrorCode
  | DataSyncRequired
deriving Repr, DecidableEq

/-- `flowy_error::FlowyError`: an error code with its message. -/
structure FlowyError where
  code : ErrorCode
  msg : String
deriving Repr, DecidableEq

/-- The error built at lines 400-404: this is the typed sync-disabled error. -/
def sync_disabled_error : FlowyError :=
  { code := .DataSyncRequired, msg := "Data Sync is disabled, please enable it first" }

/-- `AFServerImpl` (server.rs:387-390): a handle carrying either the captured
client or nothing.  It holds no reference back to the session. -/
structure AFServerImpl where
  client : Option AFCloudClient
deriving Repr, DecidableEq

/-- `get_server_impl` (server.rs:113-120): loads `enable_sync` once and
captures the current client exactly when the flag reads true. -/
def get_server_impl (s : SessionState) : AFServerImpl :=
  { client := if s.enable_sync then some s.client else none }

/-- `AFServerImpl::get_client` (server.rs:393-395). -/
def AFServerImpl.get_client (impl : AFServerImpl) : Option AFCloudClient :=
  impl.client

/-- `AFServerImpl::try_get_client` (server.rs:397-408): fails with the
`DataSyncRequired` error when no client was captured. -/
def AFServerImpl.try_get_client (impl : AFServerImpl) : Except FlowyError AFCloudClient :=
  match impl.client with
  | none => .error sync_disabled_error
  | some c => .ok c

/-- `user_service` (server.rs:175-197): the returned `AFCloudUserAuthServiceImpl`
carries `self.get_server_impl()` as its server handle; the surrounding user
change channel does not touch the sync gate. -/
def user_service (s : SessionState) : AFServerImpl :=
  get_server_impl s

/-- `folder_service` (server.rs:199-204): inner handle of
`AFCloudFolderCloudServiceImpl`. -/
def folder_service (s : SessionState) : AFServerImpl :=
  get_server_impl s

/-- `database_service` (server.rs:206-211): inner handle of
`AFCloudDatabaseCloudServiceImpl`. -/
def database_service (s : SessionState) : AFServerImpl :=
  get_server_impl s

/-- `document_service` (server.rs:220-225): inner handle of
`AFCloudDocumentCloudServiceImpl`. -/
def document_service (s : SessionState) : AFServerImpl :=
  get_server_impl s

/-- `chat_service` (server.rs:227-234): inner handle of the wrapped
`CloudChatServiceImpl`. -/
def chat_service (s : SessionState) : AFServerImpl :=
  get_server_impl s

/-- `file_storage` (server.rs:262-267): server handle given to
`AFCloudFileStorageServiceImpl::new`. -/
def file_storage (s : SessionState) : AFServerImpl :=
  get_server_impl s

/-- `search_service` (server.rs:269-275): server handle of
`AFCloudSearchCloudServiceImpl`. -/
def search_service (s : SessionState) : AFServerImpl :=
  get_server_impl s

/- ## Flag writers (server.rs:166-173) -/

/-- Calls `set_enable_sync` could make on the transport; it makes none. -/
inductive TransportCall
  | connect
  | disconnect
deriving Repr, DecidableEq

/-- `set_enable_sync` (server.rs:166-169): logs the uid and stores the flag.
The transport calls performed by the body are returned alongside the new
state — the body makes none. -/
def set_enable_sync (s : SessionState) (uid : Int) (enable : Bool) :
    SessionState × List TransportCall :=
  ({ s with enable_sync := enable }, [])

/-- `set_network_reachable` (server.rs:171-173): stores the advisory flag. -/
def set_network_reachable (s : SessionState) (reachable : Bool) : SessionState :=
  { s with network_reachable := reachable }

/- ## Helper lemmas -/

/-- The translation loop never produces the seed variant: whatever
`translate_token_tick` emits (defaulting to `Invalid` when it emits nothing)
is not `Init`. -/
theorem translate_token_tick_not_init (e : RawTokenTick) :
    ((translate_token_tick e).getD UserTokenState.Invalid).isInit = false := by
  obtain ⟨st, alive, gt⟩ := e
  cases alive <;> cases st <;> cases gt <;> rfl

/-- No emission of the translation loop over any finite prefix of raw events
is `Init`. -/
theorem token_stream_no_init_emission (events : List RawTokenTick) :
    (events.filterMap translate_token_tick).filter UserTokenState.isInit = [] := by
  induction events with
  | nil => rfl
  | cons e es ih =>
    rw [List.filterMap_cons]
    cases h : translate_token_tick e with
    | none => exact ih
    | some u =>
      have hu : u.isInit = false := by
        have h2 := translate_token_tick_not_init e
        rw [h] at h2
        exact h2
      simp [List.filter_cons, hu, ih]

/- ## Claim theorems -/

/-- C1: the claim that `attempt_reconnect`'s install-new-cancel-old swap keeps
at most one reconnect attempt in its delay-or-connect phase, with exactly one
live cancellation signal (the most recently installed), even when two callers
race, fails on the code: the body is `load_full().cancel()` followed by a
separate `store`, not an atomic swap.  Interleaving the two callers as
A-cancel, B-cancel, A-store, B-store, A-spawn, B-spawn leaves the attempts
governed by tokens 1 and 2 both uncancelled — two attempts simultaneously in
their delay-or-connect phase, and token 1 is live though token 2 was installed
after it.  A further, fully sequential `attempt_reconnect` call cancels only
the installed token 2, so the attempt on token 1 stays live forever alongside
the new attempt on token 3. -/
theorem attempt_reconnect_race_two_live :
    liveAttempts (runRace [false, true, false, true, false, true]).shared = [1, 2]
    ∧ liveAttempts (attempt_reconnect (runRace [false, true, false, true, false, true]).shared)
        = [1, 3] := by
  exact ⟨rfl, rfl⟩

/-- C2: the claim that the realized delay is uniform on
`[minimum_delay, minimum_delay + 10)` fails on the code: line 363 samples
`gen_range(minimum_delay_in_secs..10)`, so for the token-refresh path (d = 5)
every realizable delay is `5 + r % 5`, which is always below 10 — the delay
value 12, inside the claimed interval `[5, 15)`, is never realized, and the
support of the distribution is `[5, 10)`, not `[5, 15)`. -/
theorem delay_seconds_support :
    (∀ r : Nat, delay_seconds 5 r = some (5 + r % 5) ∧ 5 + r % 5 < 10)
    ∧ (List.range 10).filterMap (delay_seconds 5) = [5, 6, 7, 8, 9, 5, 6, 7, 8, 9]
    ∧ 12 ∈ Finset.Ico 5 15 := by
  refine ⟨fun r => ⟨rfl, by omega⟩, by decide, by decide⟩

/-- C3: a `PingTimeout` or `Lost` connectivity event schedules a reconnect
with minimum delay 2 if and only if the api client weak reference still
resolves and `enable_sync` reads true at that moment; when either fails the
event produces no action at all — in particular no reconnect when sync is
disabled. -/
theorem supervisor_sync_gate :
    ∀ (s : SessionState) (alive : Bool) (rr : Except String Unit),
    (SupervisorAction.schedule_reconnect 2 ∈ supervise_event s .PingTimeout alive rr
      ↔ alive = true ∧ s.enable_sync = true)
    ∧ (SupervisorAction.schedule_reconnect 2 ∈ supervise_event s .Lost alive rr
      ↔ alive = true ∧ s.enable_sync = true)
    ∧ (supervise_event s .PingTimeout alive rr
      = if alive && s.enable_sync then [.schedule_reconnect 2] else [])
    ∧ (supervise_event s .Lost alive rr
      = if alive && s.enable_sync then [.schedule_reconnect 2] else [])
    ∧ (s.enable_sync = false → supervise_event s .PingTimeout alive rr = []
      ∧ supervise_event s .Lost alive rr = []) := by
  intro s alive rr
  cases halive : alive <;> cases hsync : s.enable_sync <;>
    simp [supervise_event, hsync]

/-- C4: an `Invalid` raw token event, received while the ws client weak
reference resolves, makes exactly one `disconnect` call on the transport and
schedules zero reconnect attempts. -/
theorem invalid_token_single_disconnect :
    ∀ (s : SessionState),
    token_loop_event s .Invalid true = [.disconnect]
    ∧ count_disconnects (token_loop_event s .Invalid true) = 1
    ∧ count_reconnect_calls (token_loop_event s .Invalid true) = 0 := by
  intro s
  exact ⟨rfl, rfl, rfl⟩

/-- C5: an `Unauthorized` connectivity event, with the api client weak
reference resolving, invokes `refresh_token` and schedules no reconnect; a
refresh failure adds only a logged error to that tick's actions; and the
supervisor loop handles every event of the stream — one action list per
received event, so a failed refresh never terminates it. -/
theorem unauthorized_refresh_only :
    ∀ (s : SessionState) (rr : Except String Unit) (err : String)
      (ticks : List SupervisorTick),
    SupervisorAction.refresh_token_call "websocket connect unauthorized"
        ∈ supervise_event s .Unauthorized true rr
    ∧ count_reconnects (supervise_event s .Unauthorized true rr) = 0
    ∧ supervise_event s .Unauthorized true (Except.error err)
      = [.refresh_token_call "websocket connect unauthorized", .log_refresh_error err]
    ∧ (supervise_loop s ticks).length = ticks.length := by
  intro s rr err ticks
  refine ⟨?_, ?_, rfl, by simp [supervise_loop]⟩
  · cases rr <;> simp [supervise_event]
  · cases rr <;> rfl

/-- C6: the stream returned by `subscribe_token_state` starts with `Init`,
never carries `Init` after that first value, and per raw event: a `Refresh`
whose `get_token` succeeds emits `Refresh token` (the spec's
`Refreshed(token)`), a `Refresh` whose `get_token` fails emits nothing, and an
`Invalid` emits `Invalid`. -/
theorem token_stream_init_only_first :
    ∀ (events : List RawTokenTick) (t err : String) (r : Except String String),
    (token_state_stream events).head? = some UserTokenState.Init
    ∧ (token_state_stream events).tail.filter UserTokenState.isInit = []
    ∧ translate_token_tick { state := .Refresh, client_alive := true, get_token_result := .ok t }
      = some (.Refresh t)
    ∧ translate_token_tick { state := .Refresh, client_alive := true, get_token_result := .error err }
      = none
    ∧ translate_token_tick { state := .Invalid, client_alive := true, get_token_result := r }
      = some .Invalid := by
  intro events t err r
  refine ⟨rfl, token_stream_no_init_emission events, rfl, rfl, ?_⟩
  cases r <;> rfl

/-- C7: every service constructor hands its handle `self.get_server_impl()`,
which captures the current client exactly when `enable_sync` reads true at the
moment of the call and otherwise carries no client, making `try_get_client`
fail synchronously with the typed `DataSyncRequired` ("Data Sync is disabled")
error; a handle is a plain value without a session reference, so a handle
built before a flag write keeps following the flag value it snapshotted, while
a handle built afterwards follows the new value. -/
theorem services_snapshot_sync_gate :
    ∀ (s : SessionState) (uid : Int) (b : Bool),
    (user_service s = get_server_impl s ∧ folder_service s = get_server_impl s
      ∧ database_service s = get_server_impl s ∧ document_service s = get_server_impl s
      ∧ chat_service s = get_server_impl s ∧ file_storage s = get_server_impl s
      ∧ search_service s = get_server_impl s)
    ∧ (get_server_impl s).client = (if s.enable_sync then some s.client else none)
    ∧ (get_server_impl s).try_get_client
      = (if s.enable_sync then Except.ok s.client else Except.error sync_disabled_error)
    ∧ (s.enable_sync = false →
        (get_server_impl s).client = none
        ∧ (get_server_impl s).try_get_client = Except.error sync_disabled_error
        ∧ sync_disabled_error.code = ErrorCode.DataSyncRequired)
    ∧ user_service (set_enable_sync s uid b).1
      = { client := if b then some s.client else none } := by
  intro s uid b
  refine ⟨⟨rfl, rfl, rfl, rfl, rfl, rfl, rfl⟩, rfl, ?_, ?_, rfl⟩
  · cases h : s.enable_sync <;>
      simp [get_server_impl, AFServerImpl.try_get_client, h]
  · intro h
    refine ⟨by simp [get_server_impl, h], ?_, rfl⟩
    simp [get_server_impl, AFServerImpl.try_get_client, h]

/-- C8: `set_enable_sync` writes only the `enable_sync` flag: the other session
fields are unchanged and the body performs no transport call, so an open
connection is not closed by disabling sync. -/
theorem set_enable_sync_only_flag :
    ∀ (s : SessionState) (uid : Int) (b : Bool),
    (set_enable_sync s uid b).1.enable_sync = b
    ∧ (set_enable_sync s uid b).1.network_reachable = s.network_reachable
    ∧ (set_enable_sync s uid b).1.device_id = s.device_id
    ∧ (set_enable_sync s uid b).1.client = s.client
    ∧ (set_enable_sync s uid b).2 = [] := by
  intro s uid b
  exact ⟨rfl, rfl, rfl, rfl, rfl⟩

/-- C9: the `network_reachable` flag is write-only: two sessions differing
only by a `set_network_reachable` store make identical decisions everywhere —
the connectivity supervisor, the token loop, `get_server_impl`, every service
constructor, and `set_enable_sync` all produce the same results, and the store
leaves `enable_sync` untouched. -/
theorem network_reachable_write_only :
    ∀ (s : SessionState) (nr : Bool) (ev : ConnectState) (alive : Bool)
      (rr : Except String Unit) (t : TokenState) (wa : Bool) (uid : Int) (b : Bool),
    supervise_event (set_network_reachable s nr) ev alive rr = supervise_event s ev alive rr
    ∧ token_loop_event (set_network_reachable s nr) t wa = token_loop_event s t wa
    ∧ get_server_impl (set_network_reachable s nr) = get_server_impl s
    ∧ user_service (set_network_reachable s nr) = user_service s
    ∧ folder_service (set_network_reachable s nr) = folder_service s
    ∧ database_service (set_network_reachable s nr) = database_service s
    ∧ document_service (set_network_reachable s nr) = document_service s
    ∧ chat_service (set_network_reachable s nr) = chat_service s
    ∧ file_storage (set_network_reachable s nr) = file_storage s
    ∧ search_service (set_network_reachable s nr) = search_service s
    ∧ (set_enable_sync (set_network_reachable s nr) uid b).1.enable_sync
      = (set_enable_sync s uid b).1.enable_sync
    ∧ (set_enable_sync (set_network_reachable s nr) uid b).2 = (set_enable_sync s uid b).2
    ∧ (set_network_reachable s nr).enable_sync = s.enable_sync := by
  intro s nr ev alive rr t wa uid b
  refine ⟨?_, ?_, rfl, rfl, rfl, rfl, rfl, rfl, rfl, rfl, rfl, rfl, rfl⟩
  · cases ev <;> rfl
  · cases t <;> rfl

/-- C10: the delay sampling at line 363 draws from `minimum_delay_in_secs..10`,
an empty range — hence a panic of `gen_range` — exactly when the minimum delay
is at least 10; both internal call sites pass 2 (connectivity loss, line 308)
and 5 (token refresh, line 334), for which the sample always exists, so the
panic branch is unreachable in the program as written. -/
theorem reconnect_delay_panic_guard :
    (∀ d r : Nat, 10 ≤ d → delay_seconds d r = none)
    ∧ delay_seconds 10 0 = none
    ∧ (∀ r : Nat, (delay_seconds 2 r).isSome = true ∧ (delay_seconds 5 r).isSome = true) := by
  refine ⟨?_, rfl, fun r => ⟨rfl, rfl⟩⟩
  intro d r h
  unfold delay_seconds gen_range
  rw [if_neg (by omega : ¬ d < 10)]
